import Mathlib

/-!
Verification of the invoice reconciliation and composite risk-scoring engine
(src/ml-service/invoice_ml.py and src/ml-service/fraud_detection.py).

Modelling conventions:
- Python floats are modelled as exact rationals (ℚ); the decimal constants of
  the source (0.35, 0.05, 95, ...) are written as the corresponding rationals.
- Python dicts with fixed `.get` keys are modelled as structures whose fields
  carry the `.get` defaults (empty string, 0, none).
- `datetime.now()` is modelled as an explicit time parameter (an integer day
  index `nowDay`); display-only fields of the result dictionaries (ISO
  timestamps, rounded copies of statistics, free-text description strings)
  are omitted from the result structures.
- The sha256 digest of the canonical JSON in `_calculate_invoice_hash` is
  modelled as the canonical field tuple itself (the digest is injective on
  canonical forms up to hash collisions; equal fields give equal JSON and
  hence equal digests, which is the direction the code relies on).
-/

namespace IVMS

attribute [local semireducible] Rat.mul Rat.inv Rat.add Rat.sub Rat.ofScientific

/-! ## Text normalization and the fuzzy matcher (invoice_ml.py) -/

/-- Python `s.lower()`: character-wise lower-casing. -/
def lowerCase (s : String) : String := ⟨s.data.map Char.toLower⟩

/-- Python `s.strip()` on a character list: drop leading and trailing
whitespace. -/
def stripChars (l : List Char) : List Char :=
  ((l.dropWhile Char.isWhitespace).reverse.dropWhile Char.isWhitespace).reverse

/-- Python `s.strip()`. -/
def stripStr (s : String) : String := ⟨stripChars s.data⟩

/-- Python `s.lower().strip()`. -/
def normText (s : String) : String := stripStr (lowerCase s)

/-- Whitespace tokenizer: accumulates the current token (reversed) and cuts
at whitespace, dropping empty tokens, like Python `s.split()`. -/
def tokensAux : List Char → List Char → List String
  | [], acc => if acc = [] then [] else [⟨acc.reverse⟩]
  | c :: rest, acc =>
      if c.isWhitespace then
        if acc = [] then tokensAux rest []
        else (⟨acc.reverse⟩ : String) :: tokensAux rest []
      else tokensAux rest (c :: acc)

/-- Python `s.split()`: whitespace tokenization, dropping empty tokens. -/
def tokens (s : String) : List String := tokensAux s.data []

/-- Jaccard similarity of the token (multi)sets, as computed in
`_match_vendor` and `_descriptions_match`:
`len(set1 & set2) / len(set1 | set2)`. -/
def jaccard (t1 t2 : List String) : ℚ :=
  let inter := t1.dedup.filter (fun x => t2.contains x)
  let union := (t1 ++ t2).dedup
  (inter.length : ℚ) / (union.length : ℚ)

/-- `_descriptions_match` of invoice_ml.py: falsy inputs fail, exact
normalized equality matches, otherwise token Jaccard similarity must
exceed 0.6 (and both token sets must be nonempty). -/
def descriptionsMatch (d1 d2 : String) : Bool :=
  if d1 = "" ∨ d2 = "" then false
  else
    let n1 := normText d1
    let n2 := normText d2
    if n1 = n2 then true
    else
      let t1 := tokens n1
      let t2 := tokens n2
      if t1 ≠ [] ∧ t2 ≠ [] then decide (jaccard t1 t2 > 6/10)
      else false

/-- Result of `_match_vendor`: the matched flag and the similarity used as
confidence. -/
structure VendorMatch where
  matched : Bool
  confidence : ℚ
deriving DecidableEq

/-- `_match_vendor` of invoice_ml.py, on the two `vendor_name` fields
(`.get('vendor_name', '')`). -/
def matchVendor (invVendor poVendor : String) : VendorMatch :=
  let iv := normText invVendor
  let pv := normText poVendor
  if iv = pv then ⟨true, 1⟩
  else
    let t1 := tokens iv
    let t2 := tokens pv
    if t1 ≠ [] ∧ t2 ≠ [] then
      let sim := jaccard t1 t2
      ⟨decide (sim > 6/10), sim⟩
    else ⟨false, 0⟩

/-- `_match_po_number`: exact equality of the stripped PO-number strings. -/
def matchPoNumber (invPo poPo : String) : Bool :=
  stripStr invPo = stripStr poPo

/-! ## Three-way matching (invoice_ml.py) -/

/-- A line item: description, quantity, unit price
(`.get('quantity', 0)`, `.get('unit_price', 0)` defaults). -/
structure LineItem where
  description : String
  quantity : ℚ
  unit_price : ℚ
deriving DecidableEq

/-- A document participating in the three-way match (invoice, PO or GRN):
the fields read by `perform_three_way_match`. -/
structure MDoc where
  po_number : String
  vendor_name : String
  line_items : List LineItem
deriving DecidableEq

/-- Per-line match record built by `_match_line_items`. -/
structure LineMatch where
  description : String
  match_score : ℚ
  invoice_qty : ℚ
  invoice_price : ℚ
  po_qty : ℚ
  po_price : ℚ
  grn_qty : ℚ
  price_variance : ℚ
  quantity_variance : ℚ
deriving DecidableEq

/-- The first PO line whose description fuzzy-matches the invoice line
(`for po_line in po_lines: if self._descriptions_match(...): ...; break`). -/
def poLineOf (l : LineItem) (poLines : List LineItem) : Option LineItem :=
  poLines.find? (fun p => descriptionsMatch l.description p.description)

/-- The first GRN line whose description fuzzy-matches the invoice line;
the source only searches the GRN inside the branch where a PO line
matched, so without a PO match no GRN line is selected. -/
def grnLineOf (l : LineItem) (poLines grnLines : List LineItem) : Option LineItem :=
  match poLineOf l poLines with
  | none => none
  | some _ => grnLines.find? (fun g => descriptionsMatch l.description g.description)

/-- The `price_variance` assigned in `_match_line_items`:
`|invoice_price − po_price| / po_price` when a PO line matched with a
positive price, otherwise it stays 0. -/
def priceVarianceOf (l : LineItem) (poLines : List LineItem) : ℚ :=
  match poLineOf l poLines with
  | none => 0
  | some p => if p.unit_price > 0 then |l.unit_price - p.unit_price| / p.unit_price else 0

/-- The `quantity_variance` assigned in `_match_line_items`:
`|invoice_qty − grn_qty| / grn_qty` when a GRN line matched with a positive
quantity, otherwise it stays 0. -/
def quantityVarianceOf (l : LineItem) (poLines grnLines : List LineItem) : ℚ :=
  match grnLineOf l poLines grnLines with
  | none => 0
  | some g => if g.quantity > 0 then |l.quantity - g.quantity| / g.quantity else 0

/-- The per-line score of `_match_line_items`: `100` minus
`min(variance*100, 30)` for each strictly positive variance, floored
at `0` (`max(score, 0)`). -/
def lineScoreOf (l : LineItem) (poLines grnLines : List LineItem) : ℚ :=
  max (100 - (if priceVarianceOf l poLines > 0 then min (priceVarianceOf l poLines * 100) 30 else 0)
           - (if quantityVarianceOf l poLines grnLines > 0 then
                min (quantityVarianceOf l poLines grnLines * 100) 30 else 0)) 0

/-- The body of the `for inv_line in inv_lines` loop of `_match_line_items`,
assembling the per-line record. -/
def matchOneLine (l : LineItem) (poLines grnLines : List LineItem) : LineMatch :=
  ⟨l.description, lineScoreOf l poLines grnLines, l.quantity, l.unit_price,
   (poLineOf l poLines).elim 0 (fun p => p.quantity),
   (poLineOf l poLines).elim 0 (fun p => p.unit_price),
   (grnLineOf l poLines grnLines).elim 0 (fun g => g.quantity),
   priceVarianceOf l poLines, quantityVarianceOf l poLines grnLines⟩

/-- `_match_line_items`: one LineMatch per invoice line. -/
def matchLineItems (invLines poLines grnLines : List LineItem) : List LineMatch :=
  invLines.map (fun l => matchOneLine l poLines grnLines)

/-- A discrepancy entry (type and severity; the compared raw values attached
by the source are display-only and omitted). -/
structure Discrepancy where
  dtype : String
  severity : String
deriving DecidableEq

/-- Result of `perform_three_way_match`. -/
structure ThreeWayResult where
  overall_match : Bool
  match_score : ℚ
  po_matched : Bool
  vendor_matched : Bool
  line_matches : List LineMatch
  discrepancies : List Discrepancy
  status : String
deriving DecidableEq

/-- The header ("match_score = 100" minus penalties) part of
`perform_three_way_match`: a fixed 20-point penalty for a PO-number
mismatch and a fixed 15-point penalty for a vendor mismatch. -/
def headerScoreOf (inv po : MDoc) : ℚ :=
  100 - (if matchPoNumber inv.po_number po.po_number then 0 else 20)
      - (if (matchVendor inv.vendor_name po.vendor_name).matched then 0 else 15)

/-- `sum(lm['match_score'] for lm in line_matches) / len(line_matches) if
line_matches else 0`. -/
def lineScoreAvg (lms : List LineMatch) : ℚ :=
  if lms = [] then 0 else (lms.map (fun lm => lm.match_score)).sum / (lms.length : ℚ)

/-- The aggregated score of `perform_three_way_match`:
`match_score * 0.3 + line_score * 0.7` where `match_score` is the header
score at that point. -/
def overallScore (inv po grn : MDoc) : ℚ :=
  headerScoreOf inv po * (3/10) +
  lineScoreAvg (matchLineItems inv.line_items po.line_items grn.line_items) * (7/10)

/-- `perform_three_way_match` of invoice_ml.py: status is "matched" only
when neither header check failed and the final score is at least 90. -/
def performThreeWayMatch (inv po grn : MDoc) (tolerance : ℚ) : ThreeWayResult :=
  let poM := matchPoNumber inv.po_number po.po_number
  let vM := (matchVendor inv.vendor_name po.vendor_name).matched
  let lms := matchLineItems inv.line_items po.line_items grn.line_items
  let score := overallScore inv po grn
  let overall := poM && vM && decide (score ≥ 90)
  { overall_match := overall, match_score := score, po_matched := poM, vendor_matched := vM,
    line_matches := lms,
    discrepancies :=
      (if poM then [] else [⟨"po_number_mismatch", "high"⟩]) ++
      (if vM then [] else [⟨"vendor_mismatch", "high"⟩]) ++
      (lms.map (fun lm =>
        (if lm.price_variance > tolerance then [(⟨"price_variance", "medium"⟩ : Discrepancy)] else []) ++
        (if lm.quantity_variance > tolerance then [(⟨"quantity_variance", "medium"⟩ : Discrepancy)] else []))).flatten,
    status := if overall then "matched" else "exception" }

/-! ## Duplicate detection (invoice_ml.py) -/

/-- The invoice fields read by `detect_duplicate` and
`_calculate_invoice_hash` (`_id`, `invoice_number`, `vendor_name`,
`total_amount`, `invoice_date`). -/
structure DInvoice where
  id : String
  invoice_number : String
  vendor_name : String
  total_amount : ℚ
  invoice_date : String
deriving DecidableEq

/-- `_calculate_invoice_hash`: the sha256 of the sorted-key JSON of the four
canonical fields, modelled as the canonical field tuple itself. -/
def calculateInvoiceHash (inv : DInvoice) : String × String × ℚ × String :=
  (inv.invoice_number, inv.vendor_name, inv.total_amount, inv.invoice_date)

/-- `_dates_close` of invoice_ml.py. The source is an acknowledged
placeholder (its body is `return True` with the comment
"Placeholder - implement proper date comparison"), so it ignores its
arguments and always reports the dates as close. -/
def datesClose (_d1 _d2 : String) (_days : Nat) : Bool := true

/-- A candidate duplicate entry of `detect_duplicate`. -/
structure DupMatch where
  invoice_id : String
  match_type : String
  confidence : ℚ
  matched_fields : List String
deriving DecidableEq

/-- The configured `duplicate_threshold` of the fraud-indicator table. -/
def duplicateThreshold : ℚ := 95/100

/-- The field-overlap score of `detect_duplicate`: +40 for an equal invoice
number; +20 for an equal vendor name, inside which +30 for an equal total
amount, inside which +10 when `_dates_close` holds for the invoice dates. -/
def fieldScore (inv h : DInvoice) : ℚ :=
  (if inv.invoice_number = h.invoice_number then 40 else 0) +
  (if inv.vendor_name = h.vendor_name then
      20 + (if inv.total_amount = h.total_amount then
              30 + (if datesClose inv.invoice_date h.invoice_date 7 then 10 else 0)
            else 0)
   else 0)

/-- The matched-field names accumulated alongside `fieldScore`. -/
def fieldMatchedFields (inv h : DInvoice) : List String :=
  (if inv.invoice_number = h.invoice_number then ["invoice_number"] else []) ++
  (if inv.vendor_name = h.vendor_name then
      ["vendor"] ++
      (if inv.total_amount = h.total_amount then
         ["amount"] ++
         (if datesClose inv.invoice_date h.invoice_date 7 then ["date"] else [])
       else [])
   else [])

/-- The body of the `for hist_inv in historical_invoices` loop of
`detect_duplicate`: an exact hash match emits the exact entry and
`continue`s past field scoring; otherwise a field entry is emitted exactly
when the field score reaches `duplicate_threshold * 100`. -/
def duplicateCandidates (inv h : DInvoice) : List DupMatch :=
  if calculateInvoiceHash inv = calculateInvoiceHash h then
    [⟨h.id, "exact_hash", 1, ["all"]⟩]
  else if fieldScore inv h ≥ duplicateThreshold * 100 then
    [⟨h.id, "field_based", fieldScore inv h / 100, fieldMatchedFields inv h⟩]
  else []

/-- Result of `detect_duplicate`. -/
structure DupResult where
  is_duplicate : Bool
  duplicate_count : Nat
  duplicates : List DupMatch
  recommendation : String
deriving DecidableEq

/-- `detect_duplicate` of invoice_ml.py. -/
def detectDuplicate (inv : DInvoice) (hist : List DInvoice) : DupResult :=
  let ds := (hist.map (fun h => duplicateCandidates inv h)).flatten
  { is_duplicate := decide (ds ≠ []),
    duplicate_count := ds.length,
    duplicates := ds,
    recommendation := if ds ≠ [] then "reject" else "approve" }

/-! ## Fraud detection embedding (fraud_detection.py) -/

/-- A line item as read by fraud_detection.py (`item.get('amount', 0)`,
`item.get('quantity', 1)`, `item.get('unit_price', 0)`). -/
structure FItem where
  description : String
  amount : ℚ
  quantity : ℚ
  unit_price : ℚ
deriving DecidableEq

/-- A submission timestamp as consulted by `_analyze_patterns`
(`created_at.weekday()` with 0 = Monday .. 6 = Sunday, and
`created_at.hour`); calendar parsing is abstracted into these two fields. -/
structure Timestamp where
  weekday : Nat
  hour : Nat
deriving DecidableEq

/-- The invoice fields read by fraud_detection.py. The `vendor`/`vendor_id`
fallback chain of the source is modelled as the single field `vendor_id`,
and `due_date`/`created_at` datetimes are modelled as an absolute day index
(`due_day`, for `days_until_due`) resp. a `Timestamp`. -/
structure FInvoice where
  id : String
  invoice_number : String
  vendor_id : String
  total_amount : ℚ
  invoice_date : String
  due_day : Option Int
  created_at : Option Timestamp
  items : List FItem
deriving DecidableEq

/-- The vendor profile consulted by `_analyze_vendor`: its creation day
index (none when the record carries no creation date). -/
structure Vendor where
  created_day : Option Int
deriving DecidableEq

/-- Result of `_check_duplicate` of fraud_detection.py: the candidate list
entries carry the historical id and the match reasons. -/
structure FDupCheck where
  is_duplicate : Bool
  duplicate_count : Nat
  potential_duplicates : List (String × List String)
  confidence : ℚ
  risk : String
deriving DecidableEq

/-- The match reasons accumulated for one historical invoice in
`_check_duplicate`: invoice-number equality (for a nonempty number), total
amounts within 1% of the historical amount (both nonzero), and vendor
equality counted only when another reason already fired. -/
def fDupReasons (inv h : FInvoice) : List String :=
  let r1 : List String :=
    if h.invoice_number = inv.invoice_number ∧ inv.invoice_number ≠ ""
    then ["same_invoice_number"] else []
  let r2 : List String :=
    if h.total_amount ≠ 0 ∧ inv.total_amount ≠ 0 ∧
       |h.total_amount - inv.total_amount| / max h.total_amount 1 < 1/100
    then ["same_amount"] else []
  let r12 := r1 ++ r2
  r12 ++ (if h.vendor_id = inv.vendor_id ∧ r12 ≠ [] then ["same_vendor"] else [])

/-- `_check_duplicate` of fraud_detection.py: historical records other than
the invoice itself with a nonempty reason list become candidates; the
reported list is capped at 5; a nonempty candidate list means duplicate
with confidence 0.85 and risk "high". -/
def fCheckDuplicate (inv : FInvoice) (hist : List FInvoice) : FDupCheck :=
  if hist = [] then ⟨false, 0, [], 0, "none"⟩
  else
    let ds := ((hist.filter (fun h => h.id ≠ inv.id)).map
      (fun h => (h.id, fDupReasons inv h))).filter (fun p => p.2 ≠ [])
    let isDup := ds ≠ []
    ⟨decide isDup, ds.length, ds.take 5,
     if isDup then 85/100 else 0, if isDup then "high" else "none"⟩

/-- Result of `_analyze_price`: the degraded branches carry their reason
string; display-only statistics (rounded mean, std, z-score, direction) are
omitted. -/
structure PriceAnalysis where
  has_anomaly : Bool
  reason : Option String
  confidence : ℚ
  risk : String
deriving DecidableEq

/-- The historical invoices of the same vendor, as filtered by
`_analyze_price`. -/
def vendorInvoices (inv : FInvoice) (hist : List FInvoice) : List FInvoice :=
  hist.filter (fun h => h.vendor_id = inv.vendor_id)

/-- The nonzero historical amounts used for the price statistics
(`[h.get('total_amount', 0) for h in vendor_invoices if h.get('total_amount')]`). -/
def amountsOf (inv : FInvoice) (hist : List FInvoice) : List ℚ :=
  ((vendorInvoices inv hist).map (fun h => h.total_amount)).filter (fun a => a ≠ 0)

/-- `np.mean` on a rational list. -/
def meanQ (l : List ℚ) : ℚ := l.sum / (l.length : ℚ)

/-- `np.std` squared: the population variance (mean squared deviation). -/
def popVar (l : List ℚ) : ℚ :=
  (l.map (fun a => (a - meanQ l) ^ 2)).sum / (l.length : ℚ)

/-- The `variance_pct` of `_analyze_price`: percentage deviation from the
mean, 0 when the mean is not positive. -/
def variancePct (cur avg : ℚ) : ℚ :=
  if avg > 0 then (cur - avg) / avg * 100 else 0

/-- `_analyze_price` of fraud_detection.py. The source computes
`z_score = |current − mean| / std` with `std = sqrt(variance)` and flags on
`z_score > 2`; since both sides are nonnegative this is encoded exactly in
rational arithmetic as `(current − mean)² > 4·variance` (with `z_score = 0`
when `std` is zero), and likewise `z_score > 3` as
`(current − mean)² > 9·variance`. The irrational `std` itself only feeds
the reported confidence `min(0.9, z_score·0.3)`, where the square root is
abstracted as the parameter `sqrtFn`. -/
def analyzePrice (sqrtFn : ℚ → ℚ) (inv : FInvoice) (hist : List FInvoice) : PriceAnalysis :=
  if hist = [] then ⟨false, some "No historical data for comparison", 0, "none"⟩
  else if (vendorInvoices inv hist).length < 3 then
    ⟨false, some "Insufficient historical data", 0, "none"⟩
  else
    let amounts := amountsOf inv hist
    if amounts = [] then ⟨false, some "No amount data available", 0, "none"⟩
    else
      let avg := meanQ amounts
      let variance := popVar amounts
      let cur := inv.total_amount
      let z : ℚ := if variance > 0 then |cur - avg| / sqrtFn variance else 0
      let zGt2 := variance > 0 ∧ (cur - avg) ^ 2 > 4 * variance
      let zGt3 := variance > 0 ∧ (cur - avg) ^ 2 > 9 * variance
      let hasAnom := zGt2 ∨ |variancePct cur avg| > 20
      ⟨decide hasAnom, none,
       if hasAnom then min (9/10) (z * (3/10)) else 0,
       if zGt3 then "high" else if hasAnom then "medium" else "none"⟩

/-- Result of `_analyze_vendor`. The vendor-absent branch of the source has
no `is_new_vendor` key, which downstream `.get` reads as false. -/
structure VendorAnalysis where
  has_anomaly : Bool
  is_new_vendor : Bool
  vendor_age_days : Int
  confidence : ℚ
  risk : String
deriving DecidableEq

/-- `_analyze_vendor` of fraud_detection.py: vendor age in days against the
30-day `new_vendor_days` threshold, defaulting to 365 days when the record
has no creation date. -/
def analyzeVendor (vendor : Option Vendor) (nowDay : Int) : VendorAnalysis :=
  match vendor with
  | none => ⟨false, false, 0, 0, "none"⟩
  | some v =>
      let age : Int :=
        match v.created_day with
        | some c => nowDay - c
        | none => 365
      let isNew := decide (age < 30)
      ⟨isNew, isNew, age, if isNew then 6/10 else 0, if isNew then "medium" else "low"⟩

/-- Result of `_analyze_patterns`. -/
structure PatternAnalysis where
  has_weekend_submission : Bool
  has_after_hours_submission : Bool
  unusual_line_items : Bool
  anomaly_count : Nat
  has_anomaly : Bool
  confidence : ℚ
  risk : String
deriving DecidableEq

/-- The generic description keywords of `_analyze_patterns`. -/
def genericTerms : List String := ["services", "consulting", "misc", "other", "various"]

/-- Python `needle in haystack` substring containment. -/
def strContains (hay needle : String) : Bool :=
  decide (needle.toList <:+: hay.toList)

/-- One line item counts as generic when its lower-cased description
contains one of the generic keywords. -/
def isGenericItem (it : FItem) : Bool :=
  genericTerms.any (fun t => strContains (lowerCase it.description) t)

/-- `_analyze_patterns` of fraud_detection.py: weekend submission,
after-hours submission (hour < 6 or > 22), and an all-generic nonempty item
list; at least two of the three flags an anomaly with confidence
`0.5 + 0.1·count`. -/
def analyzePatterns (inv : FInvoice) : PatternAnalysis :=
  let weekend :=
    match inv.created_at with
    | some t => decide (t.weekday ≥ 5)
    | none => false
  let afterHours :=
    match inv.created_at with
    | some t => decide (t.hour < 6 ∨ t.hour > 22)
    | none => false
  let unusual := (decide (inv.items ≠ [])) && inv.items.all isGenericItem
  let cnt : Nat :=
    (if weekend then 1 else 0) + (if afterHours then 1 else 0) + (if unusual then 1 else 0)
  ⟨weekend, afterHours, unusual, cnt, decide (cnt ≥ 2),
   if cnt ≥ 2 then 1/2 + (cnt : ℚ) * (1/10) else 0,
   if cnt ≥ 3 then "high" else if cnt ≥ 2 then "medium" else "low"⟩

/-- Result of `_check_rush_payment`. -/
structure RushCheck where
  is_rush : Bool
  days_until_due : Int
  confidence : ℚ
  risk : String
deriving DecidableEq

/-- `_check_rush_payment` of fraud_detection.py: a due date within the
3-day `rush_payment_days` threshold of now is a rush request; no due date
means no signal. -/
def checkRushPayment (inv : FInvoice) (nowDay : Int) : RushCheck :=
  match inv.due_day with
  | none => ⟨false, 0, 0, "none"⟩
  | some d =>
      let days := d - nowDay
      let isRush := decide (days ≤ 3)
      ⟨isRush, days, if isRush then 6/10 else 0, if isRush then "medium" else "none"⟩

/-- Exact divisibility of rationals: `q % m == 0` of the source (on exact
decimal values) holds exactly when `q / m` is an integer. -/
def isMultipleOf (q m : ℚ) : Bool := decide ((q / m).den = 1)

/-- Result of `_check_round_amount`. -/
structure RoundCheck where
  is_round : Bool
  all_items_round : Bool
  is_suspicious : Bool
  amount : ℚ
  confidence : ℚ
  risk : String
deriving DecidableEq

/-- The per-item value whose divisibility by 10 is tested:
`item.get('amount', 0) or item.get('quantity', 1) * item.get('unit_price', 0)`
(a falsy, i.e. zero, amount falls back to quantity × unit price). -/
def itemRoundBase (it : FItem) : ℚ :=
  if it.amount ≠ 0 then it.amount else it.quantity * it.unit_price

/-- `_check_round_amount` of fraud_detection.py: the total is round when it
is at least the 1000 `round_amount_threshold` and divisible by 100; the
item list is all-round when nonempty and every item value is divisible by
10; suspicious requires both. -/
def checkRoundAmount (inv : FInvoice) : RoundCheck :=
  let amount := inv.total_amount
  let isRound := (decide (amount ≥ 1000)) && isMultipleOf amount 100
  let allRound :=
    (decide (inv.items ≠ [])) && inv.items.all (fun it => isMultipleOf (itemRoundBase it) 10)
  let susp := isRound && allRound
  ⟨isRound, allRound, susp, amount,
   if susp then 4/10 else 0, if susp then "low" else "none"⟩

/-! ## The composite scorer (fraud_detection.py) -/

/-- The analysis dictionary consumed by `_calculate_anomaly_score` and
`_compile_fraud_indicators`: the six sub-check results. -/
structure Analysis where
  duplicate_check : FDupCheck
  price_analysis : PriceAnalysis
  vendor_analysis : VendorAnalysis
  pattern_analysis : PatternAnalysis
  rush_payment_check : RushCheck
  round_amount_check : RoundCheck
deriving DecidableEq

/-- The six weighted contributions of `_calculate_anomaly_score`, in source
order, with the `fraud_weights` table (duplicate 0.35, price 0.25, rush
0.15, round 0.05, new vendor 0.10, frequency/pattern 0.10): a firing
indicator contributes weight × confidence, a silent one contributes 0. -/
def indicatorContributions (a : Analysis) : List ℚ :=
  [if a.duplicate_check.is_duplicate then (35/100) * a.duplicate_check.confidence else 0,
   if a.price_analysis.has_anomaly then (25/100) * a.price_analysis.confidence else 0,
   if a.rush_payment_check.is_rush then (15/100) * a.rush_payment_check.confidence else 0,
   if a.round_amount_check.is_suspicious then (5/100) * a.round_amount_check.confidence else 0,
   if a.vendor_analysis.is_new_vendor then (10/100) * a.vendor_analysis.confidence else 0,
   if a.pattern_analysis.has_anomaly then (10/100) * a.pattern_analysis.confidence else 0]

/-- `_calculate_anomaly_score` of fraud_detection.py: the running
`score += weight * confidence` accumulation over the six gated
indicators, returned as `min(1.0, score)`. -/
def calculateAnomalyScore (a : Analysis) : ℚ :=
  let score : ℚ := 0
  let score := score +
    (if a.duplicate_check.is_duplicate then (35/100) * a.duplicate_check.confidence else 0)
  let score := score +
    (if a.price_analysis.has_anomaly then (25/100) * a.price_analysis.confidence else 0)
  let score := score +
    (if a.rush_payment_check.is_rush then (15/100) * a.rush_payment_check.confidence else 0)
  let score := score +
    (if a.round_amount_check.is_suspicious then (5/100) * a.round_amount_check.confidence else 0)
  let score := score +
    (if a.vendor_analysis.is_new_vendor then (10/100) * a.vendor_analysis.confidence else 0)
  let score := score +
    (if a.pattern_analysis.has_anomaly then (10/100) * a.pattern_analysis.confidence else 0)
  min 1 score

/-- `_determine_risk_level` of fraud_detection.py. -/
def determineRiskLevel (score : ℚ) : String :=
  if score ≥ 7/10 then "critical"
  else if score ≥ 5/10 then "high"
  else if score ≥ 3/10 then "medium"
  else if score ≥ 1/10 then "low"
  else "none"

/-- The mutable attributes of `FraudDetectionService` (`models_trained` and
`vendor_stats_cache`; the sklearn estimators are only touched by the
training path). -/
structure FDState where
  models_trained : Bool
  vendor_stats_cache : List (String × ℚ)
deriving DecidableEq

/-- Result of `analyze_invoice` (timestamps and the display-only indicator
and recommendation strings omitted). -/
structure AnalyzeResult where
  analysis : Analysis
  anomaly_score : ℚ
  risk_level : String
deriving DecidableEq

/-- `analyze_invoice` of fraud_detection.py: runs the six sub-checks on the
inputs, then derives the anomaly score and risk level. The instance state
is threaded explicitly and `datetime.now()` is the explicit `nowDay`. -/
def analyzeInvoice (st : FDState) (sqrtFn : ℚ → ℚ) (inv : FInvoice)
    (hist : List FInvoice) (vendor : Option Vendor) (nowDay : Int) :
    AnalyzeResult × FDState :=
  let a : Analysis :=
    ⟨fCheckDuplicate inv hist, analyzePrice sqrtFn inv hist,
     analyzeVendor vendor nowDay, analyzePatterns inv,
     checkRushPayment inv nowDay, checkRoundAmount inv⟩
  let score := calculateAnomalyScore a
  (⟨a, score, determineRiskLevel score⟩, st)

/-- Outcome of `train_model`: the guard of the source; the trained branch
(feature extraction and the isolation forest fit) is outside this
embedding and represented by the single `trained` constructor. -/
inductive TrainOutcome where
  | insufficientData (msg : String)
  | trained
deriving DecidableEq

/-- The data-sufficiency guard of `train_model` of fraud_detection.py. -/
def trainModel (hist : List FInvoice) : TrainOutcome :=
  if hist.length < 10 then
    .insufficientData "Insufficient data for training (minimum 10 records)"
  else .trained

/-- The mutable attribute of `InvoiceMLService` (the TfidfVectorizer, whose
fitted state is only touched by the semantic-matching path), threaded
explicitly for the stateless-scoring theorems. -/
structure MLState where
  vectorizer_state : Nat
deriving DecidableEq

/-- `perform_three_way_match` as an instance method: state in, state out. -/
def performThreeWayMatchS (st : MLState) (inv po grn : MDoc) (tolerance : ℚ) :
    ThreeWayResult × MLState :=
  (performThreeWayMatch inv po grn tolerance, st)

/-- `detect_duplicate` as an instance method: state in, state out. -/
def detectDuplicateS (st : MLState) (inv : DInvoice) (hist : List DInvoice) :
    DupResult × MLState :=
  (detectDuplicate inv hist, st)

/-! ## Concrete example inputs -/

/-- C1 example: an invoice whose only firing indicator is the duplicate
check (confidence 0.85). -/
def exInvoiceC1 : FInvoice :=
  ⟨"inv-1", "INV-100", "v1", 12345/100, "2024-01-15", none, none, []⟩

/-- C1 example: a historical invoice sharing the invoice number (firing the
duplicate check) but from another vendor, leaving all other checks silent. -/
def exHistoryC1 : FInvoice :=
  ⟨"h-1", "INV-100", "v2", 999, "2023-12-01", none, none, []⟩

/-- The analysis record produced for the C1 example. -/
def exAnalysisC1 : Analysis :=
  (analyzeInvoice ⟨false, []⟩ (fun q => q) exInvoiceC1 [exHistoryC1] none 0).1.analysis

/-- A three-way request with matching PO number and vendor but an empty
invoice line-item list. -/
def cInvNoLines : MDoc := ⟨"PO-1", "Acme Corp", []⟩

/-- The PO of the empty-lines request. -/
def cPoNoLines : MDoc := ⟨"PO-1", "Acme Corp", [⟨"widget", 2, 5⟩]⟩

/-- The GRN of the empty-lines request. -/
def cGrnNoLines : MDoc := ⟨"", "", [⟨"widget", 2, 5⟩]⟩

/-- A perfectly matching three-way invoice. -/
def cInvPerfect : MDoc := ⟨"PO-7", "acme corp", [⟨"blue widget", 3, 25/2⟩]⟩

/-- The PO matching `cInvPerfect` (same PO number; vendor and description
equal after normalization; identical price and quantity). -/
def cPoPerfect : MDoc := ⟨"PO-7", "Acme Corp", [⟨"Blue Widget", 3, 25/2⟩]⟩

/-- The GRN matching `cInvPerfect` (same description and quantity). -/
def cGrnPerfect : MDoc := ⟨"", "", [⟨"blue widget", 3, 0⟩]⟩

/-- C3 failing input: current invoice, date 2024-01-01. -/
def c3invoice : DInvoice := ⟨"i1", "INV-9", "Globex", 500, "2024-01-01"⟩

/-- C3 failing input: historical twin dated five months later (far outside
the 7-day window). -/
def c3history : DInvoice := ⟨"h9", "INV-9", "Globex", 500, "2024-06-01"⟩

/-- C4 witness: an invoice and a historical record identical on the four
canonical fields. -/
def c4invoice : DInvoice := ⟨"i2", "INV-77", "Initech", 250, "2024-03-05"⟩

/-- C4 witness: the identical historical record. -/
def c4history : DInvoice := ⟨"h4", "INV-77", "Initech", 250, "2024-03-05"⟩

/-- C6 counterexample: the current invoice. -/
def c6invoice : DInvoice := ⟨"i0", "INV-1", "V", 100, "2024-01-01"⟩

/-- C6 counterexample: a historical copy of `c6invoice` under a fresh id. -/
def c6copy (n : String) : DInvoice := ⟨n, "INV-1", "V", 100, "2024-01-01"⟩

/-- C6 counterexample: six identical historical records. -/
def c6history : List DInvoice :=
  [c6copy "a", c6copy "b", c6copy "c", c6copy "d", c6copy "e", c6copy "f"]

/-- C8 example: total 5000, every item value a multiple of 10 (one via the
amount field, one via quantity × unit price). -/
def c8ex5000 : FInvoice := ⟨"i", "N", "v", 5000, "", none, none,
  [⟨"a", 30, 1, 0⟩, ⟨"b", 0, 2, 10⟩]⟩

/-- C8 example: total 5050 (not divisible by 100). -/
def c8ex5050 : FInvoice := ⟨"i", "N", "v", 5050, "", none, none,
  [⟨"a", 30, 1, 0⟩, ⟨"b", 0, 2, 10⟩]⟩

/-- C8 counterexample: total exactly 1000. -/
def c8ex1000 : FInvoice := ⟨"i", "N", "v", 1000, "", none, none,
  [⟨"a", 30, 1, 0⟩]⟩

/-- C9 witness inputs: one historical invoice only, so fewer than 3 from
the same vendor. -/
def wPriceInv : FInvoice := ⟨"w1", "W-1", "vx", 100, "", none, none, []⟩

/-- C9 witness history: a single same-vendor record. -/
def wPriceHist : List FInvoice := [⟨"w2", "W-2", "vx", 90, "", none, none, []⟩]

/-- C9 witness history with three same-vendor records carrying nonzero
amounts. -/
def wPrice3Hist : List FInvoice :=
  [⟨"a1", "A-1", "vx", 100, "", none, none, []⟩,
   ⟨"a2", "A-2", "vx", 110, "", none, none, []⟩,
   ⟨"a3", "A-3", "vx", 120, "", none, none, []⟩]

/-! ## Claim theorems -/

/-- Claim C5 (confirmed): for fixed inputs (the wall clock made an explicit
input), invoking the scoring operations twice — from arbitrary, possibly
different instance states — yields identical analysis results, three-way
match results and duplicate verdicts, and leaves the instance state
untouched: the operations are pure in the embedded state-passing sense. -/
theorem scoring_deterministic_and_stateless (sqrtFn : ℚ → ℚ) (s1 s2 : FDState)
    (m1 m2 : MLState) (inv : FInvoice) (hist : List FInvoice) (vendor : Option Vendor)
    (nowDay : Int) (minv mpo mgrn : MDoc) (tol : ℚ) (dinv : DInvoice) (dhist : List DInvoice) :
    (analyzeInvoice s1 sqrtFn inv hist vendor nowDay).1 =
      (analyzeInvoice s2 sqrtFn inv hist vendor nowDay).1 ∧
    (analyzeInvoice s1 sqrtFn inv hist vendor nowDay).2 = s1 ∧
    (performThreeWayMatchS m1 minv mpo mgrn tol).1 =
      (performThreeWayMatchS m2 minv mpo mgrn tol).1 ∧
    (performThreeWayMatchS m1 minv mpo mgrn tol).2 = m1 ∧
    (detectDuplicateS m1 dinv dhist).1 = (detectDuplicateS m2 dinv dhist).1 ∧
    (detectDuplicateS m1 dinv dhist).2 = m1 :=
  ⟨rfl, rfl, rfl, rfl, rfl, rfl⟩

/-- Claim C3 (code bug): the source `_dates_close` is a placeholder that
always returns True, so the +10 date bonus is granted even for invoice
dates five months apart; a historical record agreeing on number, vendor
and amount but dated far outside the 7-day window still scores 100 and is
reported as a field-based duplicate with confidence 1.0 — under the
claimed 7-day gate it would score 90 and stay below the 95 threshold. -/
theorem duplicate_date_gate_inoperative :
    datesClose c3invoice.invoice_date c3history.invoice_date 7 = true ∧
    fieldScore c3invoice c3history = 100 ∧
    (detectDuplicate c3invoice [c3history]).is_duplicate = true ∧
    (detectDuplicate c3invoice [c3history]).duplicates =
      [⟨"h9", "field_based", 1, ["invoice_number", "vendor", "amount", "date"]⟩] := by
  decide

/-- Claim C10 (confirmed): with an empty invoice line-item list the mean
per-line score is taken as 0, so the overall score is 0.3 × header-score,
at most 30, and the status is "exception" — even when PO number and vendor
match exactly (the bound holds for every header outcome). -/
theorem three_way_no_lines_caps_at_30 (inv po grn : MDoc) (tol : ℚ)
    (hlines : inv.line_items = []) :
    (performThreeWayMatch inv po grn tol).match_score = headerScoreOf inv po * (3/10) ∧
    (performThreeWayMatch inv po grn tol).match_score ≤ 30 ∧
    (performThreeWayMatch inv po grn tol).status = "exception" := by
  have hlms : matchLineItems inv.line_items po.line_items grn.line_items = [] := by
    rw [hlines]; rfl
  have hscore : (performThreeWayMatch inv po grn tol).match_score =
      headerScoreOf inv po * (3/10) := by
    show overallScore inv po grn = _
    rw [overallScore, hlms]
    simp [lineScoreAvg]
  have hheader : headerScoreOf inv po ≤ 100 := by
    rw [headerScoreOf]; split_ifs <;> norm_num
  have hle : (performThreeWayMatch inv po grn tol).match_score ≤ 30 := by
    rw [hscore]; linarith
  refine ⟨hscore, hle, ?_⟩
  have hlt : ¬ (overallScore inv po grn ≥ 90) := by
    have heq : (performThreeWayMatch inv po grn tol).match_score = overallScore inv po grn := rfl
    rw [heq] at hle; linarith
  show (if (matchPoNumber inv.po_number po.po_number &&
          (matchVendor inv.vendor_name po.vendor_name).matched &&
          decide (overallScore inv po grn ≥ 90)) = true then "matched" else "exception") =
      "exception"
  rw [decide_eq_false hlt]
  simp

/-- Witness for C10 at a concrete request whose header matches perfectly:
score 30, status "exception". -/
theorem three_way_no_lines_caps_at_30_witness :
    cInvNoLines.line_items = [] ∧
    ((performThreeWayMatch cInvNoLines cPoNoLines cGrnNoLines (1/20)).match_score =
        headerScoreOf cInvNoLines cPoNoLines * (3/10) ∧
     (performThreeWayMatch cInvNoLines cPoNoLines cGrnNoLines (1/20)).match_score ≤ 30 ∧
     (performThreeWayMatch cInvNoLines cPoNoLines cGrnNoLines (1/20)).status = "exception") :=
  ⟨rfl, three_way_no_lines_caps_at_30 cInvNoLines cPoNoLines cGrnNoLines (1/20) rfl⟩

/-- Counterexample to claim C2 as stated: an invoice with an empty
line-item list satisfies the claim's hypotheses vacuously (PO number
equal, vendor matched, every line item — there are none — matching
exactly), yet the match score is 30, not 100, and the status is
"exception". -/
theorem three_way_vacuous_lines_cex :
    cInvNoLines.line_items = [] ∧
    matchPoNumber cInvNoLines.po_number cPoNoLines.po_number = true ∧
    (matchVendor cInvNoLines.vendor_name cPoNoLines.vendor_name).matched = true ∧
    (performThreeWayMatch cInvNoLines cPoNoLines cGrnNoLines (1/20)).match_score = 30 ∧
    (performThreeWayMatch cInvNoLines cPoNoLines cGrnNoLines (1/20)).status = "exception" := by
  decide

/-- Counterexample to claim C6 as stated: six identical historical records
produce six reported duplicate candidates — `detect_duplicate` does not
cap its list at 5. -/
theorem duplicate_matches_uncapped_cex :
    (detectDuplicate c6invoice c6history).duplicates.length = 6 ∧
    ¬ (detectDuplicate c6invoice c6history).duplicates.length ≤ 5 := by
  decide

/-- Counterexample to claim C8 as stated: at a total of exactly $1000 the
indicator fires (`is_round = true`) although the total is not
strictly greater than $1000 — the source threshold test is `>=`, not `>`. -/
theorem round_amount_at_threshold_cex :
    c8ex1000.total_amount = 1000 ∧
    ¬ c8ex1000.total_amount > 1000 ∧
    (checkRoundAmount c8ex1000).is_round = true := by
  decide

/-- A rational is an exact multiple of a nonzero rational `m` exactly when
their quotient has denominator 1. -/
lemma isMultipleOf_iff (q m : ℚ) (hm : m ≠ 0) :
    isMultipleOf q m = true ↔ ∃ k : ℤ, q = m * k := by
  rw [isMultipleOf, decide_eq_true_iff]
  constructor
  · intro hden
    have h2 : ((q / m).num : ℚ) = q / m := (Rat.den_eq_one_iff _).mp hden
    have h3 : q = (q / m) * m := (div_mul_cancel₀ q hm).symm
    rw [← h2] at h3
    exact ⟨(q / m).num, h3.trans (mul_comm _ _)⟩
  · rintro ⟨k, rfl⟩
    rw [mul_div_cancel_left₀ _ hm]
    exact Rat.den_intCast k

/-- Claim C8 (corrected: the source fires at totals ≥ $1000, not > $1000):
the round-amount indicator reports `is_round` exactly when the total is at
least $1000 and divisible by 100, and `is_suspicious` exactly when
additionally the line-item list is nonempty and every item's value is
divisible by 10; total 5000 with all item values multiples of 10 is
suspicious, and total 5050 produces no round-amount signal. -/
theorem round_amount_characterization :
    (∀ inv : FInvoice, (checkRoundAmount inv).is_round = true ↔
        (inv.total_amount ≥ 1000 ∧ ∃ k : ℤ, inv.total_amount = 100 * k)) ∧
    (∀ inv : FInvoice, (checkRoundAmount inv).is_suspicious = true ↔
        ((checkRoundAmount inv).is_round = true ∧ inv.items ≠ [] ∧
         inv.items.all (fun it => isMultipleOf (itemRoundBase it) 10) = true)) ∧
    (∀ it : FItem, isMultipleOf (itemRoundBase it) 10 = true ↔
        ∃ k : ℤ, itemRoundBase it = 10 * k) ∧
    ((checkRoundAmount c8ex5000).is_round = true ∧
     (checkRoundAmount c8ex5000).is_suspicious = true) ∧
    ((checkRoundAmount c8ex5050).is_round = false ∧
     (checkRoundAmount c8ex5050).is_suspicious = false ∧
     (checkRoundAmount c8ex5050).confidence = 0) := by
  refine ⟨?_, ?_, ?_, by decide, by decide⟩
  · intro inv
    show ((decide (inv.total_amount ≥ 1000)) && isMultipleOf inv.total_amount 100) = true ↔ _
    rw [Bool.and_eq_true, decide_eq_true_iff, isMultipleOf_iff _ _ (by norm_num)]
  · intro inv
    show ((decide (inv.total_amount ≥ 1000) && isMultipleOf inv.total_amount 100) &&
          (decide (inv.items ≠ []) &&
            inv.items.all (fun it => isMultipleOf (itemRoundBase it) 10))) = true ↔
        ((decide (inv.total_amount ≥ 1000) && isMultipleOf inv.total_amount 100) = true ∧
         inv.items ≠ [] ∧
         inv.items.all (fun it => isMultipleOf (itemRoundBase it) 10) = true)
    simp [and_assoc]
  · intro it
    exact isMultipleOf_iff _ _ (by norm_num)

/-- Claim C4 (confirmed): an invoice identical to a historical record on
{invoice number, vendor name, total amount, invoice date} hashes equally,
so `detect_duplicate` reports it as a duplicate, the record's candidate is
exactly the exact-hash entry with confidence 1.0, and no field-based
candidate is emitted for that record (the exact match short-circuits the
field scoring). -/
theorem exact_hash_duplicate_short_circuit (inv h : DInvoice) (hist : List DInvoice)
    (hmem : h ∈ hist)
    (h1 : inv.invoice_number = h.invoice_number) (h2 : inv.vendor_name = h.vendor_name)
    (h3 : inv.total_amount = h.total_amount) (h4 : inv.invoice_date = h.invoice_date) :
    (detectDuplicate inv hist).is_duplicate = true ∧
    duplicateCandidates inv h = [⟨h.id, "exact_hash", 1, ["all"]⟩] ∧
    ∀ d ∈ duplicateCandidates inv h, d.match_type ≠ "field_based" := by
  have hhash : calculateInvoiceHash inv = calculateInvoiceHash h := by
    rw [calculateInvoiceHash, calculateInvoiceHash, h1, h2, h3, h4]
  have hcand : duplicateCandidates inv h = [⟨h.id, "exact_hash", 1, ["all"]⟩] := by
    rw [duplicateCandidates, if_pos hhash]
  refine ⟨?_, hcand, ?_⟩
  · have hds : (⟨h.id, "exact_hash", 1, ["all"]⟩ : DupMatch) ∈
        (hist.map (fun x => duplicateCandidates inv x)).flatten :=
      List.mem_flatten_of_mem (List.mem_map_of_mem _ hmem)
        (by rw [hcand]; exact List.mem_singleton_self _)
    show decide ((hist.map (fun x => duplicateCandidates inv x)).flatten ≠ []) = true
    exact decide_eq_true (List.ne_nil_of_mem hds)
  · intro d hd
    rw [hcand, List.mem_singleton] at hd
    subst hd
    show ("exact_hash" : String) ≠ "field_based"
    decide

/-- Witness for C4 at a concrete identical pair. -/
theorem exact_hash_duplicate_short_circuit_witness :
    c4history ∈ [c4history] ∧
    ((detectDuplicate c4invoice [c4history]).is_duplicate = true ∧
     duplicateCandidates c4invoice c4history = [⟨"h4", "exact_hash", 1, ["all"]⟩] ∧
     ∀ d ∈ duplicateCandidates c4invoice c4history, d.match_type ≠ "field_based") :=
  ⟨List.mem_singleton_self _,
   exact_hash_duplicate_short_circuit c4invoice c4history [c4history]
     (List.mem_singleton_self _) rfl rfl rfl rfl⟩

/-- Claim C9 (confirmed): with fewer than 3 same-vendor historical
invoices the price check degrades to no-anomaly, confidence 0 and an
explicit insufficient-data reason; with at least 3 (and some nonzero
amount data) it flags exactly when the z-score exceeds 2 — encoded
exactly as `(current − mean)² > 4·variance`, which over ℝ is equivalent to
`|current − mean| / √variance > 2` — or the absolute variance percentage
exceeds 20; and training on fewer than 10 records returns the explicit
insufficient-data error. -/
theorem price_anomaly_and_training_insufficient_data :
    (∀ (sqrtFn : ℚ → ℚ) (inv : FInvoice) (hist : List FInvoice),
       (vendorInvoices inv hist).length < 3 →
       (analyzePrice sqrtFn inv hist).has_anomaly = false ∧
       (analyzePrice sqrtFn inv hist).confidence = 0 ∧
       ((analyzePrice sqrtFn inv hist).reason = some "No historical data for comparison" ∨
        (analyzePrice sqrtFn inv hist).reason = some "Insufficient historical data")) ∧
    (∀ (sqrtFn : ℚ → ℚ) (inv : FInvoice) (hist : List FInvoice),
       3 ≤ (vendorInvoices inv hist).length → amountsOf inv hist ≠ [] →
       ((analyzePrice sqrtFn inv hist).has_anomaly = true ↔
         ((popVar (amountsOf inv hist) > 0 ∧
            (inv.total_amount - meanQ (amountsOf inv hist)) ^ 2 > 4 * popVar (amountsOf inv hist)) ∨
          |variancePct inv.total_amount (meanQ (amountsOf inv hist))| > 20))) ∧
    (∀ (d v : ℚ), 0 < v →
       (((d : ℝ) ^ 2 > 4 * (v : ℝ)) ↔ |(d : ℝ)| / Real.sqrt (v : ℝ) > 2)) ∧
    (∀ hist : List FInvoice, hist.length < 10 →
       trainModel hist = .insufficientData "Insufficient data for training (minimum 10 records)") := by
  refine ⟨?_, ?_, ?_, ?_⟩
  · intro sqrtFn inv hist hlt
    by_cases hh : hist = []
    · rw [analyzePrice, if_pos hh]
      exact ⟨rfl, rfl, Or.inl rfl⟩
    · rw [analyzePrice, if_neg hh, if_pos hlt]
      exact ⟨rfl, rfl, Or.inr rfl⟩
  · intro sqrtFn inv hist h3 hne
    have hh : hist ≠ [] := by
      intro h
      subst h
      have hz : (vendorInvoices inv ([] : List FInvoice)).length = 0 := rfl
      omega
    have hnlt : ¬ (vendorInvoices inv hist).length < 3 := not_lt.mpr h3
    simp only [analyzePrice, if_neg hh, if_neg hnlt, if_neg hne]
    rw [decide_eq_true_iff]
  · intro d v hv
    have hv' : (0 : ℝ) < (v : ℝ) := by exact_mod_cast hv
    have hs : 0 < Real.sqrt (v : ℝ) := Real.sqrt_pos.mpr hv'
    have h1 : Real.sqrt (v : ℝ) ^ 2 = (v : ℝ) := Real.sq_sqrt hv'.le
    have h2 : |(d : ℝ)| ^ 2 = (d : ℝ) ^ 2 := sq_abs _
    constructor
    · intro h
      rw [gt_iff_lt, lt_div_iff₀ hs]
      by_contra hc
      push_neg at hc
      nlinarith [abs_nonneg (d : ℝ), Real.sqrt_nonneg (v : ℝ),
        mul_self_le_mul_self (abs_nonneg (d : ℝ)) hc]
    · intro h
      rw [gt_iff_lt, lt_div_iff₀ hs] at h
      nlinarith [abs_nonneg (d : ℝ), Real.sqrt_nonneg (v : ℝ),
        mul_self_lt_mul_self (by positivity) h]
  · intro hist hlen
    rw [trainModel, if_pos hlen]

/-- Witness for C9: the degraded branch at one same-vendor record, the
characterization at three same-vendor records, the z-score equivalence at
(3, 1), and the training guard on the empty history. -/
theorem price_anomaly_and_training_insufficient_data_witness :
    ((vendorInvoices wPriceInv wPriceHist).length < 3 ∧
     (analyzePrice (fun q => q) wPriceInv wPriceHist).has_anomaly = false ∧
     (analyzePrice (fun q => q) wPriceInv wPriceHist).confidence = 0 ∧
     ((analyzePrice (fun q => q) wPriceInv wPriceHist).reason =
        some "No historical data for comparison" ∨
      (analyzePrice (fun q => q) wPriceInv wPriceHist).reason =
        some "Insufficient historical data")) ∧
    (3 ≤ (vendorInvoices wPriceInv wPrice3Hist).length ∧ amountsOf wPriceInv wPrice3Hist ≠ [] ∧
     ((analyzePrice (fun q => q) wPriceInv wPrice3Hist).has_anomaly = true ↔
       ((popVar (amountsOf wPriceInv wPrice3Hist) > 0 ∧
          (wPriceInv.total_amount - meanQ (amountsOf wPriceInv wPrice3Hist)) ^ 2 >
            4 * popVar (amountsOf wPriceInv wPrice3Hist)) ∨
        |variancePct wPriceInv.total_amount (meanQ (amountsOf wPriceInv wPrice3Hist))| > 20))) ∧
    ((0 : ℚ) < 1 ∧
     ((((3 : ℚ)) : ℝ) ^ 2 > 4 * (((1 : ℚ)) : ℝ) ↔
        |(((3 : ℚ)) : ℝ)| / Real.sqrt (((1 : ℚ)) : ℝ) > 2)) ∧
    (([] : List FInvoice).length < 10 ∧
     trainModel [] = .insufficientData "Insufficient data for training (minimum 10 records)") :=
  ⟨⟨by decide,
    (price_anomaly_and_training_insufficient_data.1 (fun q => q) wPriceInv wPriceHist
      (by decide)).1,
    (price_anomaly_and_training_insufficient_data.1 (fun q => q) wPriceInv wPriceHist
      (by decide)).2.1,
    (price_anomaly_and_training_insufficient_data.1 (fun q => q) wPriceInv wPriceHist
      (by decide)).2.2⟩,
   ⟨by decide, by decide,
    price_anomaly_and_training_insufficient_data.2.1 (fun q => q) wPriceInv wPrice3Hist
      (by decide) (by decide)⟩,
   ⟨by decide,
    price_anomaly_and_training_insufficient_data.2.2.1 3 1 (by decide)⟩,
   ⟨by decide,
    price_anomaly_and_training_insufficient_data.2.2.2 [] (by decide)⟩⟩

/-- Every candidate emitted for a single historical record carries
confidence 1: the exact-hash entry by construction, and a field-based
entry only clears the 95 threshold with the full score of 100. -/
lemma duplicateCandidates_confidence_one (inv h : DInvoice) :
    ∀ d ∈ duplicateCandidates inv h, d.confidence = 1 := by
  intro d hd
  rw [duplicateCandidates] at hd
  split_ifs at hd with h1 h2
  · rw [List.mem_singleton] at hd
    subst hd
    rfl
  · rw [List.mem_singleton] at hd
    subst hd
    show fieldScore inv h / 100 = 1
    have h100 : fieldScore inv h = 100 := by
      rw [duplicateThreshold] at h2
      by_cases ha : inv.invoice_number = h.invoice_number <;>
        by_cases hb : inv.vendor_name = h.vendor_name <;>
          by_cases hc : inv.total_amount = h.total_amount <;>
            simp only [fieldScore, datesClose, ha, hb, hc, if_true, if_false,
              ite_true, ite_false] at h2 ⊢ <;>
              norm_num at h2 ⊢
    rw [h100]
    norm_num
  · exact absurd hd (List.not_mem_nil d)

/-- Claim C6 (corrected: `detect_duplicate` does not cap its candidate
list — only `_check_duplicate` of fraud_detection.py caps at 5): every
candidate reported by `detect_duplicate` has confidence 1.0, so the list
is (trivially) ordered by confidence descending, and the
`potential_duplicates` list of `_check_duplicate` has at most 5 entries. -/
theorem duplicate_candidates_confidence_sorted_and_cap :
    (∀ (inv : DInvoice) (hist : List DInvoice),
       ((detectDuplicate inv hist).duplicates.all (fun d => d.confidence == 1)) = true) ∧
    (∀ (inv : DInvoice) (hist : List DInvoice),
       (detectDuplicate inv hist).duplicates.Pairwise
         (fun a b => b.confidence ≤ a.confidence)) ∧
    (∀ (inv : FInvoice) (hist : List FInvoice),
       (fCheckDuplicate inv hist).potential_duplicates.length ≤ 5) := by
  have key : ∀ (inv : DInvoice) (hist : List DInvoice),
      ∀ d ∈ (detectDuplicate inv hist).duplicates, d.confidence = 1 := by
    intro inv hist d hd
    have hds : d ∈ (hist.map (fun x => duplicateCandidates inv x)).flatten := hd
    rw [List.mem_flatten] at hds
    obtain ⟨l, hl, hdl⟩ := hds
    rw [List.mem_map] at hl
    obtain ⟨x, _, rfl⟩ := hl
    exact duplicateCandidates_confidence_one inv x d hdl
  refine ⟨?_, ?_, ?_⟩
  · intro inv hist
    rw [List.all_eq_true]
    intro d hd
    exact beq_iff_eq.mpr (key inv hist d hd)
  · intro inv hist
    exact List.pairwise_of_forall_mem_list
      (fun a ha b hb => by rw [key inv hist a ha, key inv hist b hb])
  · intro inv hist
    rw [fCheckDuplicate]
    split_ifs with h
    · simp
    · show ((((hist.filter (fun x => x.id ≠ inv.id)).map
          (fun x => (x.id, fDupReasons inv x))).filter (fun p => p.2 ≠ [])).take 5).length ≤ 5
      rw [List.length_take]
      exact min_le_left _ _

/-- Counterexample to claim C7 as stated: two empty strings are equal
after lower-casing and trimming, yet `_descriptions_match` reports no
match, because its falsy-input guard fires before the equality
short-circuit. -/
theorem descriptions_match_empty_equal_cex :
    normText "" = normText "" ∧ descriptionsMatch "" "" = false := by
  decide

/-- Claim C7 (corrected: in `_descriptions_match` an empty input string is
rejected before the equality short-circuit, so two empty strings do not
match; `_match_vendor` has no such guard): the similarity is the Jaccard
ratio of the token sets, equality after normalization short-circuits to a
match with similarity 1.0, and otherwise a match is declared exactly when
both token sets are nonempty and the Jaccard similarity exceeds 0.6. -/
theorem fuzzy_match_jaccard_characterization :
    (∀ t1 t2 : List String,
       jaccard t1 t2 = ((t1.toFinset ∩ t2.toFinset).card : ℚ) /
         ((t1.toFinset ∪ t2.toFinset).card : ℚ)) ∧
    (∀ s1 s2 : String, normText s1 = normText s2 → matchVendor s1 s2 = ⟨true, 1⟩) ∧
    (∀ s1 s2 : String, normText s1 ≠ normText s2 →
       ((matchVendor s1 s2).matched = true ↔
         (tokens (normText s1) ≠ [] ∧ tokens (normText s2) ≠ [] ∧
          jaccard (tokens (normText s1)) (tokens (normText s2)) > 6/10))) ∧
    (∀ s1 s2 : String, normText s1 ≠ normText s2 →
       tokens (normText s1) ≠ [] → tokens (normText s2) ≠ [] →
       (matchVendor s1 s2).confidence =
         jaccard (tokens (normText s1)) (tokens (normText s2))) ∧
    (∀ s1 s2 : String, s1 ≠ "" → s2 ≠ "" → normText s1 = normText s2 →
       descriptionsMatch s1 s2 = true) ∧
    (∀ s1 s2 : String, s1 ≠ "" → s2 ≠ "" → normText s1 ≠ normText s2 →
       (descriptionsMatch s1 s2 = true ↔
         (tokens (normText s1) ≠ [] ∧ tokens (normText s2) ≠ [] ∧
          jaccard (tokens (normText s1)) (tokens (normText s2)) > 6/10))) := by
  refine ⟨?_, ?_, ?_, ?_, ?_, ?_⟩
  · intro t1 t2
    have hnd : (t1.dedup.filter (fun x => t2.contains x)).Nodup :=
      (List.nodup_dedup t1).filter _
    have hinter : (t1.toFinset ∩ t2.toFinset).card =
        (t1.dedup.filter (fun x => t2.contains x)).length := by
      rw [← List.toFinset_card_of_nodup hnd]
      congr 1
      ext a
      simp only [Finset.mem_inter, List.mem_toFinset, List.mem_filter, List.mem_dedup]
      constructor
      · rintro ⟨ha1, ha2⟩
        exact ⟨ha1, List.elem_iff.mpr ha2⟩
      · rintro ⟨ha1, ha2⟩
        exact ⟨ha1, List.elem_iff.mp ha2⟩
    have hunion : (t1.toFinset ∪ t2.toFinset).card = ((t1 ++ t2).dedup).length := by
      rw [← List.toFinset_append, List.card_toFinset]
    rw [jaccard, hinter, hunion]
  · intro s1 s2 h
    rw [matchVendor, if_pos h]
  · intro s1 s2 h
    rw [matchVendor, if_neg h]
    dsimp only
    split_ifs with ht
    · constructor
      · intro hj
        exact ⟨ht.1, ht.2, of_decide_eq_true hj⟩
      · rintro ⟨_, _, hj⟩
        exact decide_eq_true hj
    · constructor
      · intro hf
        exact absurd hf (by simp)
      · rintro ⟨hn1, hn2, _⟩
        exact absurd ⟨hn1, hn2⟩ ht
  · intro s1 s2 h h1 h2
    rw [matchVendor, if_neg h]
    dsimp only
    rw [if_pos ⟨h1, h2⟩]
  · intro s1 s2 h1 h2 he
    simp only [descriptionsMatch]
    rw [if_neg (not_or.mpr ⟨h1, h2⟩), if_pos he]
  · intro s1 s2 h1 h2 hne
    simp only [descriptionsMatch]
    rw [if_neg (not_or.mpr ⟨h1, h2⟩), if_neg hne]
    split_ifs with ht
    · rw [decide_eq_true_iff]
      constructor
      · intro hj
        exact ⟨ht.1, ht.2, hj⟩
      · rintro ⟨_, _, hj⟩
        exact hj
    · constructor
      · intro hf
        exact absurd hf (by simp)
      · rintro ⟨hn1, hn2, _⟩
        exact absurd ⟨hn1, hn2⟩ ht

/-- Witness for C7: the fuzzy branch at "alpha beta" / "alpha gamma"
(Jaccard 1/3, no match) and the equality short-circuit at "Acme  " /
"acme". -/
theorem fuzzy_match_jaccard_characterization_witness :
    (normText "alpha beta" ≠ normText "alpha gamma" ∧
     ((matchVendor "alpha beta" "alpha gamma").matched = true ↔
       (tokens (normText "alpha beta") ≠ [] ∧ tokens (normText "alpha gamma") ≠ [] ∧
        jaccard (tokens (normText "alpha beta")) (tokens (normText "alpha gamma")) > 6/10))) ∧
    ("Acme  " ≠ "" ∧ "acme" ≠ "" ∧ normText "Acme  " = normText "acme" ∧
     descriptionsMatch "Acme  " "acme" = true) :=
  ⟨⟨by decide,
    fuzzy_match_jaccard_characterization.2.2.1 "alpha beta" "alpha gamma" (by decide)⟩,
   ⟨by decide, by decide, by decide,
    fuzzy_match_jaccard_characterization.2.2.2.2.1 "Acme  " "acme"
      (by decide) (by decide) (by decide)⟩⟩

/-- The sequential `score +=` accumulation of `_calculate_anomaly_score`
equals the clamped sum of the contribution list. -/
lemma calculateAnomalyScore_eq_sum (a : Analysis) :
    calculateAnomalyScore a = min 1 (indicatorContributions a).sum := by
  rw [calculateAnomalyScore, indicatorContributions]
  congr 1
  simp only [List.sum_cons, List.sum_nil]
  ring

/-- Claim C1 (confirmed): the anomaly score is the clamped sum of the
fixed-weight × confidence contributions of the firing indicators
(duplicate 0.35, price 0.25, rush 0.15, round 0.05, new-vendor 0.10,
pattern 0.10); it stays in [0, 1] whenever the contributions are
nonnegative; the risk tier is determined by the 0.7/0.5/0.3/0.1
thresholds; and on the example invoice where only the duplicate indicator
fires with confidence 0.85, `analyze_invoice` yields score
0.35 × 0.85 = 0.2975 and tier "low" (for every instance state and every
square-root realization). -/
theorem anomaly_score_weighted_sum_and_tiers :
    (∀ a : Analysis, calculateAnomalyScore a = min 1 (indicatorContributions a).sum) ∧
    (∀ a : Analysis, 0 ≤ (indicatorContributions a).sum →
       0 ≤ calculateAnomalyScore a ∧ calculateAnomalyScore a ≤ 1) ∧
    (∀ s : ℚ,
       (7/10 ≤ s → determineRiskLevel s = "critical") ∧
       (5/10 ≤ s ∧ s < 7/10 → determineRiskLevel s = "high") ∧
       (3/10 ≤ s ∧ s < 5/10 → determineRiskLevel s = "medium") ∧
       (1/10 ≤ s ∧ s < 3/10 → determineRiskLevel s = "low") ∧
       (s < 1/10 → determineRiskLevel s = "none")) ∧
    (∀ (sqrtFn : ℚ → ℚ) (st : FDState),
       (analyzeInvoice st sqrtFn exInvoiceC1 [exHistoryC1] none 0).1.analysis.duplicate_check.is_duplicate
         = true ∧
       (analyzeInvoice st sqrtFn exInvoiceC1 [exHistoryC1] none 0).1.analysis.duplicate_check.confidence
         = 85/100 ∧
       (analyzeInvoice st sqrtFn exInvoiceC1 [exHistoryC1] none 0).1.analysis.price_analysis.has_anomaly
         = false ∧
       (analyzeInvoice st sqrtFn exInvoiceC1 [exHistoryC1] none 0).1.analysis.rush_payment_check.is_rush
         = false ∧
       (analyzeInvoice st sqrtFn exInvoiceC1 [exHistoryC1] none 0).1.analysis.round_amount_check.is_suspicious
         = false ∧
       (analyzeInvoice st sqrtFn exInvoiceC1 [exHistoryC1] none 0).1.analysis.vendor_analysis.is_new_vendor
         = false ∧
       (analyzeInvoice st sqrtFn exInvoiceC1 [exHistoryC1] none 0).1.analysis.pattern_analysis.has_anomaly
         = false ∧
       (analyzeInvoice st sqrtFn exInvoiceC1 [exHistoryC1] none 0).1.anomaly_score =
         (35/100) * (85/100) ∧
       (analyzeInvoice st sqrtFn exInvoiceC1 [exHistoryC1] none 0).1.anomaly_score = 2975/10000 ∧
       (analyzeInvoice st sqrtFn exInvoiceC1 [exHistoryC1] none 0).1.risk_level = "low") := by
  refine ⟨?_, ?_, ?_, ?_⟩
  · exact calculateAnomalyScore_eq_sum
  · intro a hsum
    rw [calculateAnomalyScore_eq_sum]
    exact ⟨le_min (by norm_num) hsum, min_le_left _ _⟩
  · intro s
    refine ⟨fun h => ?_, fun h => ?_, fun h => ?_, fun h => ?_, fun h => ?_⟩
    · rw [determineRiskLevel, if_pos h]
    · rw [determineRiskLevel, if_neg (not_le.mpr h.2), if_pos h.1]
    · rw [determineRiskLevel, if_neg (not_le.mpr (lt_trans h.2 (by norm_num))),
        if_neg (not_le.mpr h.2), if_pos h.1]
    · rw [determineRiskLevel, if_neg (not_le.mpr (lt_trans h.2 (by norm_num))),
        if_neg (not_le.mpr (lt_trans h.2 (by norm_num))), if_neg (not_le.mpr h.2), if_pos h.1]
    · rw [determineRiskLevel, if_neg (not_le.mpr (lt_trans h (by norm_num))),
        if_neg (not_le.mpr (lt_trans h (by norm_num))),
        if_neg (not_le.mpr (lt_trans h (by norm_num))), if_neg (not_le.mpr h)]
  · intro sqrtFn st
    have h1 : analyzePrice sqrtFn exInvoiceC1 [exHistoryC1] =
        (⟨false, some "Insufficient historical data", 0, "none"⟩ : PriceAnalysis) := rfl
    simp only [analyzeInvoice, h1]
    decide

/-- Witness for C1: the contribution sum of the example analysis is
nonnegative, so the clamped score lies in [0, 1]; and 0.2975 falls in the
"low" band. -/
theorem anomaly_score_weighted_sum_and_tiers_witness :
    (0 ≤ (indicatorContributions exAnalysisC1).sum ∧
     0 ≤ calculateAnomalyScore exAnalysisC1 ∧ calculateAnomalyScore exAnalysisC1 ≤ 1) ∧
    ((1/10 : ℚ) ≤ 2975/10000 ∧ (2975/10000 : ℚ) < 3/10 ∧
     determineRiskLevel (2975/10000) = "low") :=
  ⟨⟨by decide, anomaly_score_weighted_sum_and_tiers.2.1 exAnalysisC1 (by decide)⟩,
   ⟨by decide, by decide,
    (anomaly_score_weighted_sum_and_tiers.2.2.1 (2975/10000)).2.2.2.1 ⟨by decide, by decide⟩⟩⟩

/-- The guarded per-line penalty of the source equals the unguarded
`min(variance*100, 30)` for nonnegative variances. -/
lemma guard_min_eq (x : ℚ) (hx : 0 ≤ x) :
    (if x > 0 then min (x * 100) 30 else 0) = min (x * 100) 30 := by
  split_ifs with h
  · rfl
  · have hx0 : x = 0 := le_antisymm (not_lt.mp h) hx
    rw [hx0, zero_mul]
    exact (min_eq_left (by norm_num)).symm

/-- Price variances are nonnegative. -/
lemma priceVarianceOf_nonneg (l : LineItem) (poLines : List LineItem) :
    0 ≤ priceVarianceOf l poLines := by
  rw [priceVarianceOf]
  cases hp : poLineOf l poLines with
  | none => exact le_refl 0
  | some p =>
      dsimp only
      split_ifs with h
      · exact div_nonneg (abs_nonneg _) h.le
      · exact le_refl 0

/-- Quantity variances are nonnegative. -/
lemma quantityVarianceOf_nonneg (l : LineItem) (poLines grnLines : List LineItem) :
    0 ≤ quantityVarianceOf l poLines grnLines := by
  rw [quantityVarianceOf]
  cases hg : grnLineOf l poLines grnLines with
  | none => exact le_refl 0
  | some g =>
      dsimp only
      split_ifs with h
      · exact div_nonneg (abs_nonneg _) h.le
      · exact le_refl 0

/-- The per-line score in the unguarded form of the claim. -/
lemma lineScore_unguarded (l : LineItem) (poLines grnLines : List LineItem) :
    lineScoreOf l poLines grnLines =
      max (100 - min (priceVarianceOf l poLines * 100) 30
               - min (quantityVarianceOf l poLines grnLines * 100) 30) 0 := by
  rw [lineScoreOf,
    guard_min_eq _ (priceVarianceOf_nonneg l poLines),
    guard_min_eq _ (quantityVarianceOf_nonneg l poLines grnLines)]

/-- A line whose first matching PO line has the same unit price and whose
first matching GRN line has the same quantity scores a full 100. -/
lemma lineScore_perfect (l : LineItem) (poLines grnLines : List LineItem)
    (hp : (poLineOf l poLines).any (fun p => p.unit_price == l.unit_price) = true)
    (hg : (grnLines.find? (fun q => descriptionsMatch l.description q.description)).any
            (fun g => g.quantity == l.quantity) = true) :
    lineScoreOf l poLines grnLines = 100 := by
  cases hpo : poLineOf l poLines with
  | none =>
      rw [hpo] at hp
      exact absurd hp (by simp [Option.any])
  | some p =>
      rw [hpo] at hp
      have hpe : p.unit_price = l.unit_price := by
        have := hp
        rw [Option.any] at this
        exact beq_iff_eq.mp this
      have hpv : priceVarianceOf l poLines = 0 := by
        rw [priceVarianceOf, hpo]
        dsimp only
        rw [hpe, sub_self, abs_zero]
        split_ifs <;> simp
      cases hgo : grnLines.find? (fun q => descriptionsMatch l.description q.description) with
      | none =>
          rw [hgo] at hg
          exact absurd hg (by simp [Option.any])
      | some g =>
          rw [hgo] at hg
          have hge : g.quantity = l.quantity := by
            have := hg
            rw [Option.any] at this
            exact beq_iff_eq.mp this
          have hqv : quantityVarianceOf l poLines grnLines = 0 := by
            rw [quantityVarianceOf, grnLineOf, hpo]
            dsimp only
            rw [hgo]
            dsimp only
            rw [hge, sub_self, abs_zero]
            split_ifs <;> simp
          rw [lineScoreOf, hpv, hqv]
          norm_num

/-- Sum of a constant rational list. -/
lemma list_sum_const (L : List ℚ) (c : ℚ) (h : ∀ x ∈ L, x = c) :
    L.sum = (L.length : ℚ) * c := by
  induction L with
  | nil => simp
  | cons a t ih =>
      rw [List.sum_cons, h a (List.mem_cons_self a t),
        ih (fun x hx => h x (List.mem_cons_of_mem a hx)), List.length_cons]
      push_cast
      ring

/-- Claim C2 (corrected: the perfect-match conclusion additionally needs at
least one invoice line item — with an empty line list the score is 30 and
the status "exception", see the counterexample): the overall score is
0.3 × header-score (100 minus the fixed 20-point PO penalty and 15-point
vendor penalty) plus 0.7 × the mean per-line score (0 for an empty line
list); each per-line score is 100 − min(30, price_variance×100) −
min(30, quantity_variance×100) floored at 0; and whenever the PO numbers
match, the vendor matches, the line list is nonempty, and every invoice
line's first matching PO line has an identical unit price and first
matching GRN line an identical quantity, the result is
`match_score = 100` and status "matched". -/
theorem three_way_match_formula_and_perfect_match :
    (∀ (inv po grn : MDoc) (tol : ℚ),
       (performThreeWayMatch inv po grn tol).match_score =
         (100 - (if matchPoNumber inv.po_number po.po_number then (0:ℚ) else 20)
              - (if (matchVendor inv.vendor_name po.vendor_name).matched then (0:ℚ) else 15))
           * (3/10)
         + (if inv.line_items = [] then (0:ℚ)
            else ((matchLineItems inv.line_items po.line_items grn.line_items).map
                   (fun lm => lm.match_score)).sum /
                 ((matchLineItems inv.line_items po.line_items grn.line_items).length : ℚ))
           * (7/10)) ∧
    (∀ (l : LineItem) (poLines grnLines : List LineItem),
       (matchOneLine l poLines grnLines).match_score =
         max (100 - min ((matchOneLine l poLines grnLines).price_variance * 100) 30
                  - min ((matchOneLine l poLines grnLines).quantity_variance * 100) 30) 0) ∧
    (∀ (inv po grn : MDoc) (tol : ℚ),
       inv.line_items ≠ [] →
       matchPoNumber inv.po_number po.po_number = true →
       (matchVendor inv.vendor_name po.vendor_name).matched = true →
       inv.line_items.all (fun l =>
         (poLineOf l po.line_items).any (fun p => p.unit_price == l.unit_price) &&
         ((grn.line_items.find? (fun q => descriptionsMatch l.description q.description)).any
            (fun g => g.quantity == l.quantity))) = true →
       (performThreeWayMatch inv po grn tol).match_score = 100 ∧
       (performThreeWayMatch inv po grn tol).status = "matched") := by
  refine ⟨?_, ?_, ?_⟩
  · intro inv po grn tol
    show overallScore inv po grn = _
    have hmm : matchLineItems inv.line_items po.line_items grn.line_items = [] ↔
        inv.line_items = [] := by
      rw [matchLineItems]
      exact List.map_eq_nil_iff
    rw [overallScore, headerScoreOf, lineScoreAvg]
    by_cases hl : inv.line_items = []
    · rw [if_pos (hmm.mpr hl), if_pos hl]
    · rw [if_neg (fun h => hl (hmm.mp h)), if_neg hl]
  · intro l poLines grnLines
    exact lineScore_unguarded l poLines grnLines
  · intro inv po grn tol hne hpo hv hall
    have hscores : ∀ lm ∈ matchLineItems inv.line_items po.line_items grn.line_items,
        lm.match_score = 100 := by
      intro lm hlm
      rw [matchLineItems, List.mem_map] at hlm
      obtain ⟨l, hl, rfl⟩ := hlm
      have h := List.all_eq_true.mp hall l hl
      rw [Bool.and_eq_true] at h
      exact lineScore_perfect l po.line_items grn.line_items h.1 h.2
    have hlen : matchLineItems inv.line_items po.line_items grn.line_items ≠ [] := by
      rw [matchLineItems]
      intro hmap
      exact hne (List.map_eq_nil_iff.mp hmap)
    have havg : lineScoreAvg (matchLineItems inv.line_items po.line_items grn.line_items)
        = 100 := by
      rw [lineScoreAvg, if_neg hlen]
      rw [list_sum_const _ 100 (by
        intro x hx
        rw [List.mem_map] at hx
        obtain ⟨lm, hlm, rfl⟩ := hx
        exact hscores lm hlm), List.length_map]
      have hlen0 : ((matchLineItems inv.line_items po.line_items grn.line_items).length : ℚ)
          ≠ 0 :=
        Nat.cast_ne_zero.mpr (fun h0 => hlen (List.length_eq_zero.mp h0))
      field_simp
    have hheader : headerScoreOf inv po = 100 := by
      rw [headerScoreOf, if_pos hpo, if_pos hv]
      norm_num
    have hscore : overallScore inv po grn = 100 := by
      rw [overallScore, hheader, havg]
      norm_num
    refine ⟨hscore, ?_⟩
    show (if (matchPoNumber inv.po_number po.po_number &&
            (matchVendor inv.vendor_name po.vendor_name).matched &&
            decide (overallScore inv po grn ≥ 90)) = true then "matched" else "exception")
        = "matched"
    rw [hpo, hv, decide_eq_true (by rw [hscore]; norm_num : overallScore inv po grn ≥ 90)]
    simp

/-- Witness for C2 at a concrete perfect-match request: score 100 and
status "matched". -/
theorem three_way_match_formula_and_perfect_match_witness :
    (cInvPerfect.line_items ≠ [] ∧
     matchPoNumber cInvPerfect.po_number cPoPerfect.po_number = true ∧
     (matchVendor cInvPerfect.vendor_name cPoPerfect.vendor_name).matched = true ∧
     cInvPerfect.line_items.all (fun l =>
       (poLineOf l cPoPerfect.line_items).any (fun p => p.unit_price == l.unit_price) &&
       ((cGrnPerfect.line_items.find?
           (fun q => descriptionsMatch l.description q.description)).any
          (fun g => g.quantity == l.quantity))) = true) ∧
    ((performThreeWayMatch cInvPerfect cPoPerfect cGrnPerfect (1/20)).match_score = 100 ∧
     (performThreeWayMatch cInvPerfect cPoPerfect cGrnPerfect (1/20)).status = "matched") :=
  ⟨⟨by decide, by decide, by decide, by decide⟩,
   three_way_match_formula_and_perfect_match.2.2 cInvPerfect cPoPerfect cGrnPerfect (1/20)
     (by decide) (by decide) (by decide) (by decide)⟩

end IVMS
